import Mathlib

/-!
Verification of the French property investment calculator.

The development shallowly embeds the calculator: monetary quantities are
rationals (the reference implementation uses IEEE doubles; the claims under
study are algebraic, so they are settled in exact arithmetic), the two
integer-typed scenario fields are integers, and the stateful year loop is an
explicit recursion threading a state record.  Definitions follow the
reference implementation line by line; separately named definitions that
follow the prose of the design document are marked as such and are only used
for refinement comparisons.
-/

/-- Scenario input record (`PropertyInvestmentInput`). -/
structure PropertyInvestmentInput where
  property_price : ℚ
  down_payment : ℚ
  interest_rate : ℚ
  loan_term_years : ℤ
  monthly_rent : ℚ
  holding_period_years : ℤ
  property_tax_annual : ℚ := 0
  hoa_monthly : ℚ := 0
  maintenance_percent : ℚ := 1
  management_fee_percent : ℚ := 0
  vacancy_rate : ℚ := 0
  rent_increase_annual : ℚ := 0
deriving Repr, DecidableEq

/-- Mortgage summary record (`MortgageDetails`). -/
structure MortgageDetails where
  monthly_payment : ℚ
  total_interest : ℚ
  total_payments : ℚ
deriving Repr, DecidableEq

/-- Expense breakdown record (`YearlyExpenses`). -/
structure YearlyExpenses where
  mortgage : ℚ
  property_tax : ℚ
  hoa : ℚ
  maintenance : ℚ
  management : ℚ
  insurance : ℚ
  total : ℚ
deriving Repr, DecidableEq

/-- Per-year projection record (`YearlyProjection`). -/
structure YearlyProjection where
  year : ℤ
  rental_income : ℚ
  expenses : YearlyExpenses
  net_cash_flow : ℚ
  cumulative_cash_flow : ℚ
  principal_paydown : ℚ
  total_equity : ℚ
  remaining_balance : ℚ
deriving Repr, DecidableEq

/-- Summary record (`InvestmentSummary`). -/
structure InvestmentSummary where
  initial_investment : ℚ
  loan_amount : ℚ
  total_rental_income : ℚ
  total_expenses : ℚ
  total_cash_flow : ℚ
  total_principal_paydown : ℚ
  final_equity : ℚ
  net_profit : ℚ
  roi : ℚ
  avg_cash_on_cash_return : ℚ
  break_even_year : Option ℤ
deriving Repr, DecidableEq

/-- Full analysis result record (`PropertyInvestmentResult`). -/
structure PropertyInvestmentResult where
  input : PropertyInvestmentInput
  mortgage : MortgageDetails
  yearly_projections : List YearlyProjection
  summary : InvestmentSummary
deriving Repr, DecidableEq

/-- `_calculate_monthly_payment`: amortization formula for the level payment
(zero-rate edge case returns `principal / num_payments`). -/
def calculate_monthly_payment (principal monthly_rate : ℚ) (num_payments : ℤ) : ℚ :=
  if monthly_rate = 0 then principal / (num_payments : ℚ)
  else
    principal * (monthly_rate * (1 + monthly_rate) ^ num_payments) /
      ((1 + monthly_rate) ^ num_payments - 1)

/-- The `for month in range(1, 13)` loop body of
`_calculate_yearly_principal_paydown`: first argument is the number of months
still to process, then the running balance and the accumulated principal;
returns the final balance and accumulated principal.  The loop breaks when
the balance is already at or below zero. -/
def paydownLoop (monthly_rate monthly_payment : ℚ) : ℕ → ℚ → ℚ → ℚ × ℚ
  | 0, balance, acc => (balance, acc)
  | m + 1, balance, acc =>
    if balance ≤ 0 then (balance, acc)
    else
      paydownLoop monthly_rate monthly_payment m
        (balance - (monthly_payment - balance * monthly_rate))
        (acc + (monthly_payment - balance * monthly_rate))

/-- `_calculate_yearly_principal_paydown`: principal retired during one
calendar year (zero past the loan term). -/
def calculate_yearly_principal_paydown (starting_balance monthly_rate monthly_payment : ℚ)
    (current_year loan_term_years : ℤ) : ℚ :=
  if current_year > loan_term_years then 0
  else (paydownLoop monthly_rate monthly_payment 12 starting_balance 0).2

/-- Companion to `paydownLoop` that accumulates the monthly interest
components (`interest_payment` in the source) instead of the principal
components; the balance recursion is identical. -/
def interestLoop (monthly_rate monthly_payment : ℚ) : ℕ → ℚ → ℚ → ℚ × ℚ
  | 0, balance, acc => (balance, acc)
  | m + 1, balance, acc =>
    if balance ≤ 0 then (balance, acc)
    else
      interestLoop monthly_rate monthly_payment m
        (balance - (monthly_payment - balance * monthly_rate))
        (acc + balance * monthly_rate)

/-- Interest paid during one calendar year, by the same monthly replay as
`calculate_yearly_principal_paydown`. -/
def calculate_yearly_interest (starting_balance monthly_rate monthly_payment : ℚ)
    (current_year loan_term_years : ℤ) : ℚ :=
  if current_year > loan_term_years then 0
  else (interestLoop monthly_rate monthly_payment 12 starting_balance 0).2

/-- `_validate_input`: first invariant breach wins, with the source's
error message. -/
def validate_input (i : PropertyInvestmentInput) : Except String Unit :=
  if i.property_price ≤ 0 then Except.error "Property price must be positive"
  else if i.down_payment < 0 then Except.error "Down payment cannot be negative"
  else if i.down_payment ≥ i.property_price then
    Except.error "Down payment must be less than property price"
  else if i.interest_rate ≤ 0 then Except.error "Interest rate must be positive"
  else if i.loan_term_years ≤ 0 then Except.error "Loan term must be positive"
  else if i.monthly_rent < 0 then Except.error "Monthly rent cannot be negative"
  else if i.holding_period_years ≤ 0 then Except.error "Holding period must be positive"
  else if i.property_tax_annual < 0 then Except.error "Property tax cannot be negative"
  else if i.hoa_monthly < 0 then Except.error "HOA fees cannot be negative"
  else if i.maintenance_percent < 0 then Except.error "Maintenance percentage cannot be negative"
  else if i.management_fee_percent < 0 then
    Except.error "Management fee percentage cannot be negative"
  else if ¬(0 ≤ i.vacancy_rate ∧ i.vacancy_rate ≤ 100) then
    Except.error "Vacancy rate must be between 0 and 100"
  else if i.rent_increase_annual ≤ -100 then
    Except.error "Rent increase must be greater than -100%"
  else Except.ok ()

/-- `loan_amount = property_price - down_payment`. -/
def loan_amount (i : PropertyInvestmentInput) : ℚ :=
  i.property_price - i.down_payment

/-- `monthly_rate = interest_rate / 100.0 / 12.0`. -/
def monthly_rate (i : PropertyInvestmentInput) : ℚ :=
  i.interest_rate / 100 / 12

/-- `num_payments = loan_term_years * 12`. -/
def num_payments (i : PropertyInvestmentInput) : ℤ :=
  i.loan_term_years * 12

/-- The principal-and-interest level payment computed in `analyze`. -/
def monthly_mortgage_payment (i : PropertyInvestmentInput) : ℚ :=
  calculate_monthly_payment (loan_amount i) (monthly_rate i) (num_payments i)

/-- `monthly_life_insurance = (loan_amount * 0.004) / 12.0`. -/
def monthly_life_insurance (i : PropertyInvestmentInput) : ℚ :=
  loan_amount i * 0.004 / 12

/-- `total_monthly_mortgage = monthly_mortgage_payment + monthly_life_insurance`. -/
def total_monthly_mortgage (i : PropertyInvestmentInput) : ℚ :=
  monthly_mortgage_payment i + monthly_life_insurance i

/-- `total_mortgage_payments = total_monthly_mortgage * num_payments`. -/
def total_mortgage_payments (i : PropertyInvestmentInput) : ℚ :=
  total_monthly_mortgage i * (num_payments i : ℚ)

/-- `total_interest = total_mortgage_payments - loan_amount`. -/
def total_interest (i : PropertyInvestmentInput) : ℚ :=
  total_mortgage_payments i - loan_amount i

/-- `arrangement_fee = loan_amount * 0.01`. -/
def arrangement_fee (i : PropertyInvestmentInput) : ℚ :=
  loan_amount i * 0.01

/-- `registration_fee = loan_amount * 0.015`. -/
def registration_fee (i : PropertyInvestmentInput) : ℚ :=
  loan_amount i * 0.015

/-- `survey_fee = 750.0`. -/
def survey_fee : ℚ := 750

/-- `initial_investment = down_payment + arrangement_fee + registration_fee + survey_fee`. -/
def initial_investment (i : PropertyInvestmentInput) : ℚ :=
  i.down_payment + arrangement_fee i + registration_fee i + survey_fee

/-- The mutable locals of the year loop in `analyze`. -/
structure LoopState where
  remaining_balance : ℚ
  cumulative_cash_flow : ℚ
  break_even_year : Option ℤ
deriving Repr, DecidableEq

/-- One iteration of the year loop of `analyze` (lines 123-174 of the
source): produces the emitted `YearlyProjection` and the updated carried
state. -/
def yearStep (i : PropertyInvestmentInput) (year : ℕ) (st : LoopState) :
    YearlyProjection × LoopState :=
  let rent_multiplier := (1 + i.rent_increase_annual / 100) ^ (year - 1)
  let base_monthly_rent := i.monthly_rent * rent_multiplier
  let effective_monthly_rent := base_monthly_rent * (1 - i.vacancy_rate / 100)
  let annual_rental_income := effective_monthly_rent * 12
  let annual_mortgage := total_monthly_mortgage i * 12
  let annual_property_tax := i.property_tax_annual
  let annual_hoa := i.hoa_monthly * 12
  let annual_maintenance := i.property_price * (i.maintenance_percent / 100)
  let annual_management := base_monthly_rent * 12 * (i.management_fee_percent / 100)
  let annual_insurance := loan_amount i * 0.004
  let total_expenses := annual_mortgage + annual_property_tax + annual_hoa +
    annual_maintenance + annual_management
  let principal_paydown := calculate_yearly_principal_paydown st.remaining_balance
    (monthly_rate i) (total_monthly_mortgage i) (year : ℤ) i.loan_term_years
  let remaining_balance := st.remaining_balance - principal_paydown
  let net_cash_flow := annual_rental_income - total_expenses
  let cumulative_cash_flow := st.cumulative_cash_flow + net_cash_flow
  let break_even_year :=
    match st.break_even_year with
    | some y => some y
    | none => if 0 ≤ cumulative_cash_flow then some (year : ℤ) else none
  let total_equity := i.down_payment + (loan_amount i - remaining_balance)
  ({ year := (year : ℤ)
     rental_income := annual_rental_income
     expenses :=
       { mortgage := annual_mortgage
         property_tax := annual_property_tax
         hoa := annual_hoa
         maintenance := annual_maintenance
         management := annual_management
         insurance := annual_insurance
         total := total_expenses }
     net_cash_flow := net_cash_flow
     cumulative_cash_flow := cumulative_cash_flow
     principal_paydown := principal_paydown
     total_equity := total_equity
     remaining_balance := remaining_balance },
   { remaining_balance := remaining_balance
     cumulative_cash_flow := cumulative_cash_flow
     break_even_year := break_even_year })

/-- The year loop itself: `year` is the 1-based index of the next year, the
second argument counts the years still to run. -/
def projLoop (i : PropertyInvestmentInput) : ℕ → ℕ → LoopState → List YearlyProjection × LoopState
  | _, 0, st => ([], st)
  | year, n + 1, st =>
    let p := yearStep i year st
    let rest := projLoop i (year + 1) n p.2
    (p.1 :: rest.1, rest.2)

/-- The state part of the year loop alone. -/
def iterState (i : PropertyInvestmentInput) : ℕ → ℕ → LoopState → LoopState
  | _, 0, st => st
  | year, n + 1, st => iterState i (year + 1) n (yearStep i year st).2

/-- Initial loop state: balance is the loan amount, cumulative cash flow the
negated upfront investment, the break-even marker unset. -/
def initState (i : PropertyInvestmentInput) : LoopState :=
  { remaining_balance := loan_amount i
    cumulative_cash_flow := -initial_investment i
    break_even_year := none }

/-- Number of iterations of the year loop (`range(1, holding+1)`). -/
def holdingCount (i : PropertyInvestmentInput) : ℕ :=
  i.holding_period_years.toNat

/-- `analyze`: validation, loan-term derivation, year loop, summary
reduction. -/
def analyze (i : PropertyInvestmentInput) : Except String PropertyInvestmentResult :=
  match validate_input i with
  | Except.error e => Except.error e
  | Except.ok _ =>
    let lp := projLoop i 1 (holdingCount i) (initState i)
    let yearly_projections := lp.1
    let finalState := lp.2
    let total_rental_income := (yearly_projections.map (fun p => p.rental_income)).sum
    let total_expenses_sum := (yearly_projections.map (fun p => p.expenses.total)).sum
    let total_cash_flow := total_rental_income - total_expenses_sum
    let total_principal_paydown := loan_amount i - finalState.remaining_balance
    let final_equity := i.down_payment + total_principal_paydown
    let net_profit := total_cash_flow + final_equity - initial_investment i
    Except.ok
      { input := i
        mortgage :=
          { monthly_payment := total_monthly_mortgage i
            total_interest := total_interest i
            total_payments := total_mortgage_payments i }
        yearly_projections := yearly_projections
        summary :=
          { initial_investment := initial_investment i
            loan_amount := loan_amount i
            total_rental_income := total_rental_income
            total_expenses := total_expenses_sum
            total_cash_flow := total_cash_flow
            total_principal_paydown := total_principal_paydown
            final_equity := final_equity
            net_profit := net_profit
            roi := net_profit / initial_investment i * 100
            avg_cash_on_cash_return :=
              total_cash_flow / (i.holding_period_years : ℚ) / initial_investment i * 100
            break_even_year := finalState.break_even_year } }

/-- The conjunction of the scenario invariants of §3 of the design
document. -/
def validScenario (i : PropertyInvestmentInput) : Prop :=
  0 < i.property_price ∧ 0 ≤ i.down_payment ∧ i.down_payment < i.property_price ∧
  0 < i.interest_rate ∧ 0 < i.loan_term_years ∧ 0 ≤ i.monthly_rent ∧
  0 < i.holding_period_years ∧ 0 ≤ i.property_tax_annual ∧ 0 ≤ i.hoa_monthly ∧
  0 ≤ i.maintenance_percent ∧ 0 ≤ i.management_fee_percent ∧
  (0 ≤ i.vacancy_rate ∧ i.vacancy_rate ≤ 100) ∧ -100 < i.rent_increase_annual

instance (i : PropertyInvestmentInput) : Decidable (validScenario i) := by
  unfold validScenario; infer_instance

/-- First violated invariant, in the fixed order of §3 of the design
document, with the field-naming message; follows the prose of the design
document for comparison with `validate_input`. -/
def firstViolationSpec (i : PropertyInvestmentInput) : Option String :=
  if i.property_price ≤ 0 then some "Property price must be positive"
  else if i.down_payment < 0 then some "Down payment cannot be negative"
  else if i.down_payment ≥ i.property_price then
    some "Down payment must be less than property price"
  else if i.interest_rate ≤ 0 then some "Interest rate must be positive"
  else if i.loan_term_years ≤ 0 then some "Loan term must be positive"
  else if i.monthly_rent < 0 then some "Monthly rent cannot be negative"
  else if i.holding_period_years ≤ 0 then some "Holding period must be positive"
  else if i.property_tax_annual < 0 then some "Property tax cannot be negative"
  else if i.hoa_monthly < 0 then some "HOA fees cannot be negative"
  else if i.maintenance_percent < 0 then some "Maintenance percentage cannot be negative"
  else if i.management_fee_percent < 0 then some "Management fee percentage cannot be negative"
  else if ¬(0 ≤ i.vacancy_rate ∧ i.vacancy_rate ≤ 100) then
    some "Vacancy rate must be between 0 and 100"
  else if i.rent_increase_annual ≤ -100 then some "Rent increase must be greater than -100%"
  else none

/-- Operation B as worded in the design document: simulate at most 12
monthly steps, each step's interest being balance times periodic rate and
its principal portion the outlay minus that interest, stopping before
processing further months once the balance is zero or below; returns the
accumulated principal.  Used only for refinement comparison with
`paydownLoop`. -/
def monthlySimSpec (monthly_rate monthly_payment : ℚ) : ℕ → ℚ → ℚ
  | 0, _ => 0
  | m + 1, balance =>
    if balance ≤ 0 then 0
    else
      (monthly_payment - balance * monthly_rate) +
        monthlySimSpec monthly_rate monthly_payment m
          (balance - (monthly_payment - balance * monthly_rate))

/-- Default record used by the `getD` observations below. -/
def defaultProjection : YearlyProjection :=
  { year := 0
    rental_income := 0
    expenses :=
      { mortgage := 0, property_tax := 0, hoa := 0, maintenance := 0
        management := 0, insurance := 0, total := 0 }
    net_cash_flow := 0
    cumulative_cash_flow := 0
    principal_paydown := 0
    total_equity := 0
    remaining_balance := 0 }

/-- Default summary used when observing a failed analysis. -/
def defaultSummary : InvestmentSummary :=
  { initial_investment := 0, loan_amount := 0, total_rental_income := 0
    total_expenses := 0, total_cash_flow := 0, total_principal_paydown := 0
    final_equity := 0, net_profit := 0, roi := 0, avg_cash_on_cash_return := 0
    break_even_year := none }

/-- The projection sequence produced by an analysis (empty on validation
failure). -/
def projectionsOf (i : PropertyInvestmentInput) : List YearlyProjection :=
  match analyze i with
  | Except.ok r => r.yearly_projections
  | Except.error _ => []

/-- The `k`-th (0-based) projection record of an analysis. -/
def projRec (i : PropertyInvestmentInput) (k : ℕ) : YearlyProjection :=
  (projectionsOf i).getD k defaultProjection

/-- The summary produced by an analysis. -/
def summaryOf (i : PropertyInvestmentInput) : InvestmentSummary :=
  match analyze i with
  | Except.ok r => r.summary
  | Except.error _ => defaultSummary

/-- Whether an analysis returned normally. -/
def analyzeOk (i : PropertyInvestmentInput) : Bool :=
  match analyze i with
  | Except.ok _ => true
  | Except.error _ => false

/-- Loop state after `k` completed years of a validated analysis. -/
def stAt (i : PropertyInvestmentInput) (k : ℕ) : LoopState :=
  iterState i 1 k (initState i)

/-- Balance carried into year `k + 1` (so `balAt i 0` is the loan amount). -/
def balAt (i : PropertyInvestmentInput) (k : ℕ) : ℚ :=
  (stAt i k).remaining_balance

/-- Cumulative cash flow after `k` completed years. -/
def cumAt (i : PropertyInvestmentInput) (k : ℕ) : ℚ :=
  (stAt i k).cumulative_cash_flow

/-- Break-even marker after `k` completed years. -/
def beAt (i : PropertyInvestmentInput) (k : ℕ) : Option ℤ :=
  (stAt i k).break_even_year

/-- Interest paid during the year of 0-based index `k`, by the monthly
replay that `analyze` uses for the principal. -/
def yearlyInterestAt (i : PropertyInvestmentInput) (k : ℕ) : ℚ :=
  calculate_yearly_interest (balAt i k) (monthly_rate i) (total_monthly_mortgage i)
    (((1 + k : ℕ) : ℤ)) i.loan_term_years

/-- The successful result of `analyze` on a validated input, as a value. -/
def resultOf (i : PropertyInvestmentInput) : PropertyInvestmentResult :=
  let lp := projLoop i 1 (holdingCount i) (initState i)
  let yearly_projections := lp.1
  let finalState := lp.2
  let total_rental_income := (yearly_projections.map (fun p => p.rental_income)).sum
  let total_expenses_sum := (yearly_projections.map (fun p => p.expenses.total)).sum
  let total_cash_flow := total_rental_income - total_expenses_sum
  let total_principal_paydown := loan_amount i - finalState.remaining_balance
  let final_equity := i.down_payment + total_principal_paydown
  let net_profit := total_cash_flow + final_equity - initial_investment i
  { input := i
    mortgage :=
      { monthly_payment := total_monthly_mortgage i
        total_interest := total_interest i
        total_payments := total_mortgage_payments i }
    yearly_projections := yearly_projections
    summary :=
      { initial_investment := initial_investment i
        loan_amount := loan_amount i
        total_rental_income := total_rental_income
        total_expenses := total_expenses_sum
        total_cash_flow := total_cash_flow
        total_principal_paydown := total_principal_paydown
        final_equity := final_equity
        net_profit := net_profit
        roi := net_profit / initial_investment i * 100
        avg_cash_on_cash_return :=
          total_cash_flow / (i.holding_period_years : ℚ) / initial_investment i * 100
        break_even_year := finalState.break_even_year } }

/-- Principal paydown computed for the year of 0-based index `k` of a
validated analysis. -/
def pdAt (i : PropertyInvestmentInput) (k : ℕ) : ℚ :=
  calculate_yearly_principal_paydown (balAt i k) (monthly_rate i) (total_monthly_mortgage i)
    (((1 + k : ℕ) : ℤ)) i.loan_term_years

/-- Net cash flow of the year of 0-based index `k` of a validated
analysis. -/
def ncfAt (i : PropertyInvestmentInput) (k : ℕ) : ℚ :=
  (yearStep i (1 + k) (stAt i k)).1.net_cash_flow

/-- Pure monthly balance recurrence (no early stop): one step takes `b` to
`b * (1 + r) - pmt`.  Used to express the closed amortization form. -/
def amortBal (monthly_rate monthly_payment b : ℚ) : ℕ → ℚ
  | 0 => b
  | m + 1 => amortBal monthly_rate monthly_payment (b * (1 + monthly_rate) - monthly_payment) m

/-- Partial geometric sum `1 + (1+r) + ... + (1+r)^(m-1)`. -/
def geomSum (r : ℚ) : ℕ → ℚ
  | 0 => 0
  | m + 1 => geomSum r m + (1 + r) ^ m

/-- Concrete scenario: 100 price, nothing down, 1200% annual rate (monthly
periodic rate 1), one-year loan held one year. -/
def scenarioOne : PropertyInvestmentInput :=
  { property_price := 100, down_payment := 0, interest_rate := 1200,
    loan_term_years := 1, monthly_rent := 0, holding_period_years := 1 }

/-- Concrete scenario: loan amount 1, monthly periodic rate 1, two-year loan
held two years; the insurance-inflated outlay retires the loan during year
one. -/
def scenarioTwo : PropertyInvestmentInput :=
  { property_price := 2, down_payment := 1, interest_rate := 1200,
    loan_term_years := 2, monthly_rent := 0, holding_period_years := 2 }

/-- Concrete scenario: loan amount 1, monthly periodic rate 1, one-year loan
held one year. -/
def scenarioSmall : PropertyInvestmentInput :=
  { property_price := 2, down_payment := 1, interest_rate := 1200,
    loan_term_years := 1, monthly_rent := 0, holding_period_years := 1 }

/-- Concrete scenario: loan amount 1, monthly periodic rate 1/10, three-year
loan held two years; the loan stays active through both projected years. -/
def scenarioActive : PropertyInvestmentInput :=
  { property_price := 2, down_payment := 1, interest_rate := 120,
    loan_term_years := 3, monthly_rent := 0, holding_period_years := 2 }

/-- Concrete invalid scenario: down payment exceeds the price. -/
def scenarioInvalid : PropertyInvestmentInput :=
  { property_price := 100, down_payment := 150, interest_rate := 5,
    loan_term_years := 20, monthly_rent := 100, holding_period_years := 10 }

/-! ### Basic plumbing lemmas -/

lemma firstViolationSpec_none_iff (i : PropertyInvestmentInput) :
    firstViolationSpec i = none ↔ validScenario i := by
  unfold firstViolationSpec validScenario
  by_cases h1 : i.property_price ≤ 0
  · simp only [if_pos h1]
    constructor
    · intro hc; exact Option.noConfusion hc
    · rintro ⟨v, -⟩
      exact absurd v (not_lt.mpr h1)
  · simp only [if_neg h1]
    by_cases h2 : i.down_payment < 0
    · simp only [if_pos h2]
      constructor
      · intro hc; exact Option.noConfusion hc
      · rintro ⟨-, v, -⟩
        exact absurd v (not_le.mpr h2)
    · simp only [if_neg h2]
      by_cases h3 : i.down_payment ≥ i.property_price
      · simp only [if_pos h3]
        constructor
        · intro hc; exact Option.noConfusion hc
        · rintro ⟨-, -, v, -⟩
          exact absurd v (not_lt.mpr h3)
      · simp only [if_neg h3]
        by_cases h4 : i.interest_rate ≤ 0
        · simp only [if_pos h4]
          constructor
          · intro hc; exact Option.noConfusion hc
          · rintro ⟨-, -, -, v, -⟩
            exact absurd v (not_lt.mpr h4)
        · simp only [if_neg h4]
          by_cases h5 : i.loan_term_years ≤ 0
          · simp only [if_pos h5]
            constructor
            · intro hc; exact Option.noConfusion hc
            · rintro ⟨-, -, -, -, v, -⟩
              exact absurd v (not_lt.mpr h5)
          · simp only [if_neg h5]
            by_cases h6 : i.monthly_rent < 0
            · simp only [if_pos h6]
              constructor
              · intro hc; exact Option.noConfusion hc
              · rintro ⟨-, -, -, -, -, v, -⟩
                exact absurd v (not_le.mpr h6)
            · simp only [if_neg h6]
              by_cases h7 : i.holding_period_years ≤ 0
              · simp only [if_pos h7]
                constructor
                · intro hc; exact Option.noConfusion hc
                · rintro ⟨-, -, -, -, -, -, v, -⟩
                  exact absurd v (not_lt.mpr h7)
              · simp only [if_neg h7]
                by_cases h8 : i.property_tax_annual < 0
                · simp only [if_pos h8]
                  constructor
                  · intro hc; exact Option.noConfusion hc
                  · rintro ⟨-, -, -, -, -, -, -, v, -⟩
                    exact absurd v (not_le.mpr h8)
                · simp only [if_neg h8]
                  by_cases h9 : i.hoa_monthly < 0
                  · simp only [if_pos h9]
                    constructor
                    · intro hc; exact Option.noConfusion hc
                    · rintro ⟨-, -, -, -, -, -, -, -, v, -⟩
                      exact absurd v (not_le.mpr h9)
                  · simp only [if_neg h9]
                    by_cases h10 : i.maintenance_percent < 0
                    · simp only [if_pos h10]
                      constructor
                      · intro hc; exact Option.noConfusion hc
                      · rintro ⟨-, -, -, -, -, -, -, -, -, v, -⟩
                        exact absurd v (not_le.mpr h10)
                    · simp only [if_neg h10]
                      by_cases h11 : i.management_fee_percent < 0
                      · simp only [if_pos h11]
                        constructor
                        · intro hc; exact Option.noConfusion hc
                        · rintro ⟨-, -, -, -, -, -, -, -, -, -, v, -⟩
                          exact absurd v (not_le.mpr h11)
                      · simp only [if_neg h11]
                        by_cases h12 : ¬(0 ≤ i.vacancy_rate ∧ i.vacancy_rate ≤ 100)
                        · simp only [if_pos h12]
                          constructor
                          · intro hc; exact Option.noConfusion hc
                          · rintro ⟨-, -, -, -, -, -, -, -, -, -, -, v, -⟩
                            exact (h12 v).elim
                        · simp only [if_neg h12]
                          by_cases h13 : i.rent_increase_annual ≤ -100
                          · simp only [if_pos h13]
                            constructor
                            · intro hc; exact Option.noConfusion hc
                            · rintro ⟨-, -, -, -, -, -, -, -, -, -, -, -, v⟩
                              exact absurd v (not_lt.mpr h13)
                          · simp only [if_neg h13]
                            exact ⟨fun _ => ⟨not_le.mp h1, not_lt.mp h2, not_le.mp h3, not_le.mp h4, not_le.mp h5, not_lt.mp h6, not_le.mp h7, not_lt.mp h8, not_lt.mp h9, not_lt.mp h10, not_lt.mp h11, not_not.mp h12, not_le.mp h13⟩, fun _ => by trivial⟩

lemma validate_input_eq_spec (i : PropertyInvestmentInput) :
    validate_input i =
      (match firstViolationSpec i with
       | some m => Except.error m
       | none => Except.ok ()) := by
  unfold validate_input firstViolationSpec
  by_cases h1 : i.property_price ≤ 0
  · simp only [if_pos h1]
  · simp only [if_neg h1]
    by_cases h2 : i.down_payment < 0
    · simp only [if_pos h2]
    · simp only [if_neg h2]
      by_cases h3 : i.down_payment ≥ i.property_price
      · simp only [if_pos h3]
      · simp only [if_neg h3]
        by_cases h4 : i.interest_rate ≤ 0
        · simp only [if_pos h4]
        · simp only [if_neg h4]
          by_cases h5 : i.loan_term_years ≤ 0
          · simp only [if_pos h5]
          · simp only [if_neg h5]
            by_cases h6 : i.monthly_rent < 0
            · simp only [if_pos h6]
            · simp only [if_neg h6]
              by_cases h7 : i.holding_period_years ≤ 0
              · simp only [if_pos h7]
              · simp only [if_neg h7]
                by_cases h8 : i.property_tax_annual < 0
                · simp only [if_pos h8]
                · simp only [if_neg h8]
                  by_cases h9 : i.hoa_monthly < 0
                  · simp only [if_pos h9]
                  · simp only [if_neg h9]
                    by_cases h10 : i.maintenance_percent < 0
                    · simp only [if_pos h10]
                    · simp only [if_neg h10]
                      by_cases h11 : i.management_fee_percent < 0
                      · simp only [if_pos h11]
                      · simp only [if_neg h11]
                        by_cases h12 : ¬(0 ≤ i.vacancy_rate ∧ i.vacancy_rate ≤ 100)
                        · simp only [if_pos h12]
                        · simp only [if_neg h12]
                          by_cases h13 : i.rent_increase_annual ≤ -100
                          · simp only [if_pos h13]
                          · simp only [if_neg h13]

lemma validate_input_ok_iff (i : PropertyInvestmentInput) :
    validate_input i = Except.ok () ↔ validScenario i := by
  cases hfv : firstViolationSpec i with
  | none =>
    rw [validate_input_eq_spec, hfv]
    simpa using (firstViolationSpec_none_iff i).mp hfv
  | some m =>
    rw [validate_input_eq_spec, hfv]
    constructor
    · intro hc; exact Except.noConfusion hc
    · intro hv
      exact Option.noConfusion (hfv.symm.trans ((firstViolationSpec_none_iff i).mpr hv))

lemma validate_input_error_of_spec {i : PropertyInvestmentInput} {m : String}
    (h : firstViolationSpec i = some m) : validate_input i = Except.error m := by
  rw [validate_input_eq_spec, h]

lemma analyze_valid {i : PropertyInvestmentInput} (hv : validScenario i) :
    analyze i = Except.ok (resultOf i) := by
  unfold analyze resultOf
  rw [(validate_input_ok_iff i).mpr hv]

lemma analyze_error {i : PropertyInvestmentInput} {m : String}
    (h : validate_input i = Except.error m) : analyze i = Except.error m := by
  unfold analyze
  rw [h]

lemma projectionsOf_valid {i : PropertyInvestmentInput} (hv : validScenario i) :
    projectionsOf i = (projLoop i 1 (holdingCount i) (initState i)).1 := by
  unfold projectionsOf
  rw [analyze_valid hv]
  rfl

lemma projectionsOf_error {i : PropertyInvestmentInput} {m : String}
    (h : validate_input i = Except.error m) : projectionsOf i = [] := by
  unfold projectionsOf
  rw [analyze_error h]

lemma summaryOf_valid {i : PropertyInvestmentInput} (hv : validScenario i) :
    summaryOf i = (resultOf i).summary := by
  unfold summaryOf
  rw [analyze_valid hv]

lemma analyzeOk_valid {i : PropertyInvestmentInput} (hv : validScenario i) :
    analyzeOk i = true := by
  unfold analyzeOk
  rw [analyze_valid hv]

lemma projLoop_length (i : PropertyInvestmentInput) (n : ℕ) :
    ∀ year st, ((projLoop i year n st).1).length = n := by
  induction n with
  | zero => intro year st; rfl
  | succ n ih => intro year st; simp [projLoop, ih]

lemma projLoop_snd (i : PropertyInvestmentInput) (n : ℕ) :
    ∀ year st, (projLoop i year n st).2 = iterState i year n st := by
  induction n with
  | zero => intro year st; rfl
  | succ n ih => intro year st; simp [projLoop, iterState, ih]

lemma projLoop_getD (i : PropertyInvestmentInput) (d : YearlyProjection) (n : ℕ) :
    ∀ year st k, k < n →
      ((projLoop i year n st).1).getD k d = (yearStep i (year + k) (iterState i year k st)).1 := by
  induction n with
  | zero => intro year st k hk; exact absurd hk (Nat.not_lt_zero k)
  | succ n ih =>
    intro year st k hk
    cases k with
    | zero => simp [projLoop, iterState]
    | succ k =>
      have h := ih (year + 1) ((yearStep i year st).2) k (Nat.lt_of_succ_lt_succ hk)
      have harr : year + 1 + k = year + (k + 1) := by omega
      rw [harr] at h
      simpa [projLoop, iterState] using h

lemma iterState_succ_right (i : PropertyInvestmentInput) (n : ℕ) :
    ∀ year st, iterState i year (n + 1) st =
      (yearStep i (year + n) (iterState i year n st)).2 := by
  induction n with
  | zero => intro year st; simp [iterState]
  | succ n ih =>
    intro year st
    have h := ih (year + 1) ((yearStep i year st).2)
    have harr : year + 1 + n = year + (n + 1) := by omega
    rw [harr] at h
    simpa [iterState] using h

lemma stAt_succ (i : PropertyInvestmentInput) (k : ℕ) :
    stAt i (k + 1) = (yearStep i (1 + k) (stAt i k)).2 := by
  unfold stAt
  exact iterState_succ_right i k 1 (initState i)

lemma projRec_eq {i : PropertyInvestmentInput} (hv : validScenario i) {k : ℕ}
    (hk : k < holdingCount i) :
    projRec i k = (yearStep i (1 + k) (stAt i k)).1 := by
  unfold projRec
  rw [projectionsOf_valid hv]
  exact projLoop_getD i defaultProjection (holdingCount i) 1 (initState i) k hk

/-! ### Record-level consequences of one year step -/

lemma yearStep_year (i : PropertyInvestmentInput) (y : ℕ) (st : LoopState) :
    (yearStep i y st).1.year = (y : ℤ) := rfl

lemma yearStep_rental (i : PropertyInvestmentInput) (y : ℕ) (st : LoopState) :
    (yearStep i y st).1.rental_income =
      i.monthly_rent * (1 + i.rent_increase_annual / 100) ^ (y - 1) *
        (1 - i.vacancy_rate / 100) * 12 := rfl

lemma yearStep_exp_mortgage (i : PropertyInvestmentInput) (y : ℕ) (st : LoopState) :
    (yearStep i y st).1.expenses.mortgage = total_monthly_mortgage i * 12 := rfl

lemma yearStep_exp_tax (i : PropertyInvestmentInput) (y : ℕ) (st : LoopState) :
    (yearStep i y st).1.expenses.property_tax = i.property_tax_annual := rfl

lemma yearStep_exp_hoa (i : PropertyInvestmentInput) (y : ℕ) (st : LoopState) :
    (yearStep i y st).1.expenses.hoa = i.hoa_monthly * 12 := rfl

lemma yearStep_exp_maintenance (i : PropertyInvestmentInput) (y : ℕ) (st : LoopState) :
    (yearStep i y st).1.expenses.maintenance =
      i.property_price * (i.maintenance_percent / 100) := rfl

lemma yearStep_exp_management (i : PropertyInvestmentInput) (y : ℕ) (st : LoopState) :
    (yearStep i y st).1.expenses.management =
      i.monthly_rent * (1 + i.rent_increase_annual / 100) ^ (y - 1) * 12 *
        (i.management_fee_percent / 100) := rfl

lemma yearStep_exp_insurance (i : PropertyInvestmentInput) (y : ℕ) (st : LoopState) :
    (yearStep i y st).1.expenses.insurance = loan_amount i * 0.004 := rfl

lemma yearStep_exp_total (i : PropertyInvestmentInput) (y : ℕ) (st : LoopState) :
    (yearStep i y st).1.expenses.total =
      (yearStep i y st).1.expenses.mortgage + (yearStep i y st).1.expenses.property_tax +
      (yearStep i y st).1.expenses.hoa + (yearStep i y st).1.expenses.maintenance +
      (yearStep i y st).1.expenses.management := rfl

lemma yearStep_ncf (i : PropertyInvestmentInput) (y : ℕ) (st : LoopState) :
    (yearStep i y st).1.net_cash_flow =
      (yearStep i y st).1.rental_income - (yearStep i y st).1.expenses.total := rfl

lemma yearStep_cum (i : PropertyInvestmentInput) (y : ℕ) (st : LoopState) :
    (yearStep i y st).1.cumulative_cash_flow =
      st.cumulative_cash_flow + (yearStep i y st).1.net_cash_flow := rfl

lemma yearStep_paydown (i : PropertyInvestmentInput) (y : ℕ) (st : LoopState) :
    (yearStep i y st).1.principal_paydown =
      calculate_yearly_principal_paydown st.remaining_balance (monthly_rate i)
        (total_monthly_mortgage i) (y : ℤ) i.loan_term_years := rfl

lemma yearStep_balance (i : PropertyInvestmentInput) (y : ℕ) (st : LoopState) :
    (yearStep i y st).1.remaining_balance =
      st.remaining_balance - (yearStep i y st).1.principal_paydown := rfl

lemma yearStep_equity (i : PropertyInvestmentInput) (y : ℕ) (st : LoopState) :
    (yearStep i y st).1.total_equity =
      i.down_payment + (loan_amount i - (yearStep i y st).1.remaining_balance) := rfl

lemma yearStep_snd_balance (i : PropertyInvestmentInput) (y : ℕ) (st : LoopState) :
    (yearStep i y st).2.remaining_balance = (yearStep i y st).1.remaining_balance := rfl

lemma yearStep_snd_cum (i : PropertyInvestmentInput) (y : ℕ) (st : LoopState) :
    (yearStep i y st).2.cumulative_cash_flow = (yearStep i y st).1.cumulative_cash_flow := rfl

lemma balAt_zero (i : PropertyInvestmentInput) : balAt i 0 = loan_amount i := rfl

lemma cumAt_zero (i : PropertyInvestmentInput) : cumAt i 0 = -initial_investment i := rfl

lemma beAt_zero (i : PropertyInvestmentInput) : beAt i 0 = none := rfl

lemma balAt_succ (i : PropertyInvestmentInput) (k : ℕ) :
    balAt i (k + 1) = balAt i k - pdAt i k := by
  unfold balAt
  rw [stAt_succ]
  rfl

lemma cumAt_succ (i : PropertyInvestmentInput) (k : ℕ) :
    cumAt i (k + 1) = cumAt i k + ncfAt i k := by
  unfold cumAt
  rw [stAt_succ]
  rfl

lemma beAt_succ (i : PropertyInvestmentInput) (k : ℕ) :
    beAt i (k + 1) =
      (match beAt i k with
       | some y => some y
       | none => if 0 ≤ cumAt i k + ncfAt i k then some (((1 + k : ℕ) : ℤ)) else none) := by
  unfold beAt
  rw [stAt_succ]
  rfl

lemma projRec_paydown {i : PropertyInvestmentInput} (hv : validScenario i) {k : ℕ}
    (hk : k < holdingCount i) : (projRec i k).principal_paydown = pdAt i k := by
  rw [projRec_eq hv hk]
  rfl

lemma projRec_balance {i : PropertyInvestmentInput} (hv : validScenario i) {k : ℕ}
    (hk : k < holdingCount i) : (projRec i k).remaining_balance = balAt i (k + 1) := by
  rw [projRec_eq hv hk]
  unfold balAt
  rw [stAt_succ]
  rfl

lemma projRec_cum {i : PropertyInvestmentInput} (hv : validScenario i) {k : ℕ}
    (hk : k < holdingCount i) : (projRec i k).cumulative_cash_flow = cumAt i (k + 1) := by
  rw [projRec_eq hv hk]
  unfold cumAt
  rw [stAt_succ]
  rfl

lemma projRec_ncf {i : PropertyInvestmentInput} (hv : validScenario i) {k : ℕ}
    (hk : k < holdingCount i) : (projRec i k).net_cash_flow = ncfAt i k := by
  rw [projRec_eq hv hk]
  rfl

/-! ### Monthly loop analysis -/

lemma paydownLoop_nonpos (r pmt : ℚ) (m : ℕ) (b a : ℚ) (hb : b ≤ 0) :
    paydownLoop r pmt m b a = (b, a) := by
  cases m with
  | zero => rfl
  | succ m =>
    unfold paydownLoop
    rw [if_pos hb]

lemma paydownLoop_succ_pos (r pmt : ℚ) (m : ℕ) (b a : ℚ) (hb : 0 < b) :
    paydownLoop r pmt (m + 1) b a =
      paydownLoop r pmt m (b - (pmt - b * r)) (a + (pmt - b * r)) := by
  show (if b ≤ 0 then (b, a)
    else paydownLoop r pmt m (b - (pmt - b * r)) (a + (pmt - b * r))) = _
  rw [if_neg (not_le.mpr hb)]

lemma interestLoop_nonpos (r pmt : ℚ) (m : ℕ) (b a : ℚ) (hb : b ≤ 0) :
    interestLoop r pmt m b a = (b, a) := by
  cases m with
  | zero => rfl
  | succ m =>
    unfold interestLoop
    rw [if_pos hb]

lemma interestLoop_succ_pos (r pmt : ℚ) (m : ℕ) (b a : ℚ) (hb : 0 < b) :
    interestLoop r pmt (m + 1) b a =
      interestLoop r pmt m (b - (pmt - b * r)) (a + b * r) := by
  show (if b ≤ 0 then (b, a)
    else interestLoop r pmt m (b - (pmt - b * r)) (a + b * r)) = _
  rw [if_neg (not_le.mpr hb)]

lemma paydownLoop_snd (r pmt : ℚ) :
    ∀ m b a, (paydownLoop r pmt m b a).2 = a + (b - (paydownLoop r pmt m b a).1) := by
  intro m
  induction m with
  | zero =>
    intro b a
    show a = a + (b - b)
    ring
  | succ m ih =>
    intro b a
    by_cases hb : b ≤ 0
    · rw [paydownLoop_nonpos r pmt _ b a hb]
      show a = a + (b - b)
      ring
    · rw [paydownLoop_succ_pos r pmt m b a (lt_of_not_le hb), ih]
      ring

lemma paydownLoop_fst_le {r pmt L : ℚ} (hr : 0 < r) (hL : r * L < pmt) :
    ∀ m b a, b ≤ L → (paydownLoop r pmt m b a).1 ≤ b := by
  intro m
  induction m with
  | zero => intro b a _; exact le_refl _
  | succ m ih =>
    intro b a hb
    by_cases hb0 : b ≤ 0
    · rw [paydownLoop_nonpos r pmt _ b a hb0]
    · have hbr : b * r < pmt := by
        calc b * r ≤ L * r := mul_le_mul_of_nonneg_right hb hr.le
        _ = r * L := mul_comm L r
        _ < pmt := hL
      have hstep : b - (pmt - b * r) < b := by linarith
      rw [paydownLoop_succ_pos r pmt m b a (lt_of_not_le hb0)]
      exact le_trans (ih _ _ (le_trans hstep.le hb)) hstep.le

lemma paydownLoop_fst_lt {r pmt L : ℚ} (hr : 0 < r) (hL : r * L < pmt) :
    ∀ m b a, 0 < m → 0 < b → b ≤ L → (paydownLoop r pmt m b a).1 < b := by
  intro m
  induction m with
  | zero => intro b a hm _ _; exact absurd hm (lt_irrefl 0)
  | succ m ih =>
    intro b a _ hb0 hb
    have hbr : b * r < pmt := by
      calc b * r ≤ L * r := mul_le_mul_of_nonneg_right hb hr.le
      _ = r * L := mul_comm L r
      _ < pmt := hL
    have hstep : b - (pmt - b * r) < b := by linarith
    rw [paydownLoop_succ_pos r pmt m b a hb0]
    exact lt_of_le_of_lt (paydownLoop_fst_le hr hL m _ _ (le_trans hstep.le hb)) hstep

lemma amortBal_succ' (r pmt : ℚ) :
    ∀ m b, amortBal r pmt b (m + 1) = amortBal r pmt b m * (1 + r) - pmt := by
  intro m
  induction m with
  | zero => intro b; rfl
  | succ m ih =>
    intro b
    show amortBal r pmt (b * (1 + r) - pmt) (m + 1) = _
    rw [ih]
    rfl

lemma amortBal_closed (r pmt : ℚ) :
    ∀ m b, amortBal r pmt b m = b * (1 + r) ^ m - pmt * geomSum r m := by
  intro m
  induction m with
  | zero =>
    intro b
    show b = b * 1 - pmt * 0
    ring
  | succ m ih =>
    intro b
    show amortBal r pmt (b * (1 + r) - pmt) m = _
    rw [ih]
    show _ = b * (1 + r) ^ (m + 1) - pmt * (geomSum r m + (1 + r) ^ m)
    ring

lemma geomSum_mul (r : ℚ) : ∀ m, r * geomSum r m = (1 + r) ^ m - 1 := by
  intro m
  induction m with
  | zero =>
    show r * 0 = 1 - 1
    ring
  | succ m ih =>
    show r * (geomSum r m + (1 + r) ^ m) = (1 + r) ^ (m + 1) - 1
    rw [mul_add, ih]
    ring

lemma geomSum_nonneg {r : ℚ} (hr : 0 < r) : ∀ m, 0 ≤ geomSum r m := by
  intro m
  induction m with
  | zero => exact le_refl 0
  | succ m ih =>
    show 0 ≤ geomSum r m + (1 + r) ^ m
    have : (0:ℚ) < (1 + r) ^ m := pow_pos (by linarith) m
    linarith

lemma geomSum_pos {r : ℚ} (hr : 0 < r) (m : ℕ) : 0 < geomSum r (m + 1) := by
  show 0 < geomSum r m + (1 + r) ^ m
  have h1 : (0:ℚ) < (1 + r) ^ m := pow_pos (by linarith) m
  have h2 := geomSum_nonneg hr m
  linarith

lemma amortBal_succ_lt {r pmt L : ℚ} (hr : 0 < r) (hL : r * L < pmt) :
    ∀ m b, b ≤ L →
      amortBal r pmt b (m + 1) < amortBal r pmt b m ∧ amortBal r pmt b m ≤ L := by
  intro m
  induction m with
  | zero =>
    intro b hb
    have hbr : b * r < pmt := by
      calc b * r ≤ L * r := mul_le_mul_of_nonneg_right hb hr.le
      _ = r * L := mul_comm L r
      _ < pmt := hL
    constructor
    · show b * (1 + r) - pmt < b
      linarith
    · exact hb
  | succ m ih =>
    intro b hb
    have hbr : b * r < pmt := by
      calc b * r ≤ L * r := mul_le_mul_of_nonneg_right hb hr.le
      _ = r * L := mul_comm L r
      _ < pmt := hL
    have hstep_le : b * (1 + r) - pmt ≤ L := by
      have : b * (1 + r) - pmt < b := by linarith
      exact le_trans this.le hb
    exact ih (b * (1 + r) - pmt) hstep_le

lemma amortBal_lt_of_lt {r pmt L : ℚ} (hr : 0 < r) (hL : r * L < pmt) :
    ∀ m k b, k < m → b ≤ L → amortBal r pmt b m < amortBal r pmt b k := by
  intro m
  induction m with
  | zero => intro k b hk _; exact absurd hk (Nat.not_lt_zero k)
  | succ m ih =>
    intro k b hk hb
    rcases Nat.lt_succ_iff_lt_or_eq.mp hk with h | h
    · exact lt_trans ((amortBal_succ_lt hr hL m b hb).1) (ih k b h hb)
    · subst h
      exact (amortBal_succ_lt hr hL k b hb).1

lemma paydownLoop_fst_of_pos (r pmt : ℚ) :
    ∀ m b a, 0 < (paydownLoop r pmt m b a).1 →
      (paydownLoop r pmt m b a).1 = amortBal r pmt b m := by
  intro m
  induction m with
  | zero => intro b a _; rfl
  | succ m ih =>
    intro b a h
    by_cases hb : b ≤ 0
    · rw [paydownLoop_nonpos r pmt _ b a hb] at h
      exact absurd h (not_lt.mpr hb)
    · have hb' := lt_of_not_le hb
      rw [paydownLoop_succ_pos r pmt m b a hb'] at h ⊢
      rw [ih _ _ h]
      have harith : b - (pmt - b * r) = b * (1 + r) - pmt := by ring
      rw [harith]
      rfl

lemma interestLoop_fst_eq (r pmt : ℚ) :
    ∀ m b a a', (interestLoop r pmt m b a).1 = (paydownLoop r pmt m b a').1 := by
  intro m
  induction m with
  | zero => intro b a a'; rfl
  | succ m ih =>
    intro b a a'
    by_cases hb : b ≤ 0
    · rw [interestLoop_nonpos r pmt _ b a hb, paydownLoop_nonpos r pmt _ b a' hb]
    · have hb' := lt_of_not_le hb
      rw [interestLoop_succ_pos r pmt m b a hb', paydownLoop_succ_pos r pmt m b a' hb']
      exact ih _ _ _

lemma interestLoop_snd_of_pos (r pmt : ℚ) :
    ∀ m b a, 0 < (interestLoop r pmt m b a).1 →
      (interestLoop r pmt m b a).2 = a + (m : ℚ) * pmt - (b - amortBal r pmt b m) := by
  intro m
  induction m with
  | zero =>
    intro b a _
    show a = a + (0:ℚ) * pmt - (b - b)
    ring
  | succ m ih =>
    intro b a h
    by_cases hb : b ≤ 0
    · rw [interestLoop_nonpos r pmt _ b a hb] at h
      exact absurd h (not_lt.mpr hb)
    · have hb' := lt_of_not_le hb
      rw [interestLoop_succ_pos r pmt m b a hb'] at h ⊢
      rw [ih _ _ h]
      have harith : b - (pmt - b * r) = b * (1 + r) - pmt := by ring
      rw [harith]
      have hA : amortBal r pmt (b * (1 + r) - pmt) m = amortBal r pmt b (m + 1) := rfl
      rw [hA]
      push_cast
      ring

lemma paydownLoop_snd_eq_sim (r pmt : ℚ) :
    ∀ m b a, (paydownLoop r pmt m b a).2 = a + monthlySimSpec r pmt m b := by
  intro m
  induction m with
  | zero =>
    intro b a
    show a = a + 0
    ring
  | succ m ih =>
    intro b a
    by_cases hb : b ≤ 0
    · rw [paydownLoop_nonpos r pmt _ b a hb]
      show a = a + (if b ≤ 0 then 0 else _)
      rw [if_pos hb]
      ring
    · have hb' := lt_of_not_le hb
      rw [paydownLoop_succ_pos r pmt m b a hb', ih]
      show _ = a + (if b ≤ 0 then 0 else _)
      rw [if_neg hb]
      ring

/-! ### Facts available on validated scenarios -/

lemma calculate_monthly_payment_gt_rate_times (P r : ℚ) (n : ℤ)
    (hP : 0 < P) (hr : 0 < r) (hn : 0 < n) :
    r * P < calculate_monthly_payment P r n := by
  unfold calculate_monthly_payment
  rw [if_neg (ne_of_gt hr)]
  obtain ⟨m, rfl⟩ : ∃ m : ℕ, n = (m : ℤ) := ⟨n.toNat, (Int.toNat_of_nonneg hn.le).symm⟩
  have hm0 : m ≠ 0 := by
    intro h
    subst h
    exact absurd hn (by norm_num)
  rw [zpow_natCast]
  have hA : 1 < (1 + r) ^ m := one_lt_pow (by linarith) hm0
  rw [lt_div_iff (by linarith : (0:ℚ) < (1 + r) ^ m - 1)]
  nlinarith [mul_pos hr hP]

lemma valid_loan_pos {i : PropertyInvestmentInput} (hv : validScenario i) :
    0 < loan_amount i :=
  sub_pos.mpr hv.2.2.1

lemma valid_rate_pos {i : PropertyInvestmentInput} (hv : validScenario i) :
    0 < monthly_rate i := by
  have v4 := hv.2.2.2.1
  unfold monthly_rate
  exact div_pos (div_pos v4 (by norm_num)) (by norm_num)

lemma valid_num_payments_pos {i : PropertyInvestmentInput} (hv : validScenario i) :
    0 < num_payments i := by
  have v5 := hv.2.2.2.2.1
  unfold num_payments
  omega

lemma valid_insurance_nonneg {i : PropertyInvestmentInput} (hv : validScenario i) :
    0 ≤ monthly_life_insurance i := by
  unfold monthly_life_insurance
  have hL := (valid_loan_pos hv).le
  apply div_nonneg
  · exact mul_nonneg hL (by norm_num)
  · norm_num

lemma valid_pmt_gt {i : PropertyInvestmentInput} (hv : validScenario i) :
    monthly_rate i * loan_amount i < total_monthly_mortgage i := by
  have h1 := calculate_monthly_payment_gt_rate_times (loan_amount i) (monthly_rate i)
    (num_payments i) (valid_loan_pos hv) (valid_rate_pos hv) (valid_num_payments_pos hv)
  have h2 := valid_insurance_nonneg hv
  unfold total_monthly_mortgage monthly_mortgage_payment
  linarith

lemma valid_holdingCount_pos {i : PropertyInvestmentInput} (hv : validScenario i) :
    0 < holdingCount i := by
  have v7 := hv.2.2.2.2.2.2.1
  unfold holdingCount
  omega

/-! ### Year-level balance invariants -/

lemma balAt_succ_le_of_le {i : PropertyInvestmentInput} (hv : validScenario i) {k : ℕ}
    (hb : balAt i k ≤ loan_amount i) : balAt i (k + 1) ≤ balAt i k := by
  rw [balAt_succ]
  unfold pdAt calculate_yearly_principal_paydown
  by_cases hy : ((1 + k : ℕ) : ℤ) > i.loan_term_years
  · rw [if_pos hy]
    linarith
  · rw [if_neg hy, paydownLoop_snd]
    have hfst := paydownLoop_fst_le (valid_rate_pos hv) (valid_pmt_gt hv) 12 (balAt i k) 0 hb
    linarith

lemma balAt_le_loan {i : PropertyInvestmentInput} (hv : validScenario i) :
    ∀ k, balAt i k ≤ loan_amount i := by
  intro k
  induction k with
  | zero => rw [balAt_zero]
  | succ k ih => exact le_trans (balAt_succ_le_of_le hv ih) ih

lemma balAt_succ_le {i : PropertyInvestmentInput} (hv : validScenario i) (k : ℕ) :
    balAt i (k + 1) ≤ balAt i k :=
  balAt_succ_le_of_le hv (balAt_le_loan hv k)

lemma balAt_antitone {i : PropertyInvestmentInput} (hv : validScenario i) :
    ∀ k j, k ≤ j → balAt i j ≤ balAt i k := by
  have key : ∀ d k, balAt i (k + d) ≤ balAt i k := by
    intro d
    induction d with
    | zero => intro k; exact le_refl _
    | succ d ih =>
      intro k
      calc balAt i (k + (d + 1)) = balAt i ((k + d) + 1) := by rw [Nat.add_succ]
      _ ≤ balAt i (k + d) := balAt_succ_le hv (k + d)
      _ ≤ balAt i k := ih k
  intro k j hkj
  obtain ⟨d, rfl⟩ := Nat.exists_eq_add_of_le hkj
  exact key d k

lemma pdAt_eq_sub (i : PropertyInvestmentInput) (k : ℕ) :
    pdAt i k = balAt i k - balAt i (k + 1) := by
  rw [balAt_succ]
  ring

lemma pdAt_nonneg {i : PropertyInvestmentInput} (hv : validScenario i) (k : ℕ) :
    0 ≤ pdAt i k := by
  rw [pdAt_eq_sub]
  have := balAt_succ_le hv k
  linarith

lemma pdAt_zero_beyond (i : PropertyInvestmentInput) {k : ℕ}
    (hterm : i.loan_term_years < ((1 + k : ℕ) : ℤ)) : pdAt i k = 0 := by
  unfold pdAt calculate_yearly_principal_paydown
  rw [if_pos hterm]

lemma balAt_fst_within {i : PropertyInvestmentInput} (hv : validScenario i) {k : ℕ}
    (hterm : ((1 + k : ℕ) : ℤ) ≤ i.loan_term_years) :
    balAt i (k + 1) =
      (paydownLoop (monthly_rate i) (total_monthly_mortgage i) 12 (balAt i k) 0).1 := by
  rw [balAt_succ]
  unfold pdAt calculate_yearly_principal_paydown
  rw [if_neg (not_lt.mpr hterm), paydownLoop_snd]
  ring

lemma balAt_amort_of_pos {i : PropertyInvestmentInput} (hv : validScenario i) {k : ℕ}
    (hterm : ((1 + k : ℕ) : ℤ) ≤ i.loan_term_years) (hpos : 0 < balAt i (k + 1)) :
    balAt i (k + 1) =
      amortBal (monthly_rate i) (total_monthly_mortgage i) (balAt i k) 12 := by
  have h1 := balAt_fst_within hv hterm
  rw [h1] at hpos ⊢
  exact paydownLoop_fst_of_pos (monthly_rate i) (total_monthly_mortgage i) 12 (balAt i k) 0 hpos

lemma pdAt_formula_of_pos {i : PropertyInvestmentInput} (hv : validScenario i) {k : ℕ}
    (hterm : ((1 + k : ℕ) : ℤ) ≤ i.loan_term_years) (hpos : 0 < balAt i (k + 1)) :
    pdAt i k =
      geomSum (monthly_rate i) 12 *
        (total_monthly_mortgage i - monthly_rate i * balAt i k) := by
  rw [pdAt_eq_sub, balAt_amort_of_pos hv hterm hpos,
    amortBal_closed (monthly_rate i) (total_monthly_mortgage i) 12 (balAt i k)]
  have hgs := geomSum_mul (monthly_rate i) 12
  linear_combination (balAt i k) * hgs

lemma yearlyInterestAt_of_pos {i : PropertyInvestmentInput} (hv : validScenario i) {k : ℕ}
    (hterm : ((1 + k : ℕ) : ℤ) ≤ i.loan_term_years) (hpos : 0 < balAt i (k + 1)) :
    yearlyInterestAt i k = 12 * total_monthly_mortgage i - pdAt i k := by
  have h1 := balAt_fst_within hv hterm
  have hfst : 0 <
      (interestLoop (monthly_rate i) (total_monthly_mortgage i) 12 (balAt i k) 0).1 := by
    rw [interestLoop_fst_eq (monthly_rate i) (total_monthly_mortgage i) 12 (balAt i k) 0 0]
    rw [← h1]
    exact hpos
  unfold yearlyInterestAt calculate_yearly_interest
  rw [if_neg (not_lt.mpr hterm)]
  rw [interestLoop_snd_of_pos (monthly_rate i) (total_monthly_mortgage i) 12 (balAt i k) 0 hfst]
  have h2 : pdAt i k = balAt i k - balAt i (k + 1) := pdAt_eq_sub i k
  rw [balAt_amort_of_pos hv hterm hpos] at h2
  rw [h2]
  push_cast
  ring

/-! ### Sequence-level bookkeeping -/

lemma projectionsOf_length {i : PropertyInvestmentInput} (hv : validScenario i) :
    (projectionsOf i).length = holdingCount i := by
  rw [projectionsOf_valid hv]
  exact projLoop_length i (holdingCount i) 1 (initState i)

lemma balAt_eq_loan_sub_sum (i : PropertyInvestmentInput) :
    ∀ k, balAt i k = loan_amount i - ∑ j ∈ Finset.range k, pdAt i j := by
  intro k
  induction k with
  | zero =>
    rw [balAt_zero]
    simp
  | succ k ih =>
    rw [balAt_succ, ih, Finset.sum_range_succ]
    ring

lemma cumAt_eq (i : PropertyInvestmentInput) :
    ∀ k, cumAt i k = -initial_investment i + ∑ j ∈ Finset.range k, ncfAt i j := by
  intro k
  induction k with
  | zero =>
    rw [cumAt_zero]
    simp
  | succ k ih =>
    rw [cumAt_succ, ih, Finset.sum_range_succ]
    ring

lemma beAt_char (i : PropertyInvestmentInput) :
    ∀ k, (beAt i k = none ∧ ∀ j, j < k → cumAt i (j + 1) < 0) ∨
      (∃ m, m < k ∧ beAt i k = some ((1 + m : ℕ) : ℤ) ∧ 0 ≤ cumAt i (m + 1) ∧
        ∀ j, j < m → cumAt i (j + 1) < 0) := by
  intro k
  induction k with
  | zero =>
    left
    exact ⟨beAt_zero i, fun j hj => absurd hj (Nat.not_lt_zero j)⟩
  | succ k ih =>
    have hstep := beAt_succ i k
    rcases ih with ⟨hnone, hall⟩ | ⟨m, hm, hsome, hge, hprev⟩
    · rw [hnone] at hstep
      by_cases hc : 0 ≤ cumAt i k + ncfAt i k
      · right
        refine ⟨k, Nat.lt_succ_self k, ?_, ?_, hall⟩
        · rw [hstep, if_pos hc]
        · rw [cumAt_succ]
          exact hc
      · left
        constructor
        · rw [hstep, if_neg hc]
        · intro j hj
          rcases Nat.lt_succ_iff_lt_or_eq.mp hj with h | h
          · exact hall j h
          · subst h
            rw [cumAt_succ]
            exact lt_of_not_le hc
    · right
      refine ⟨m, Nat.lt_succ_of_lt hm, ?_, hge, hprev⟩
      rw [hstep, hsome]

/-! ### Summary field lemmas -/

lemma summary_initial {i : PropertyInvestmentInput} (hv : validScenario i) :
    (summaryOf i).initial_investment = initial_investment i := by
  rw [summaryOf_valid hv]
  rfl

lemma summary_loan {i : PropertyInvestmentInput} (hv : validScenario i) :
    (summaryOf i).loan_amount = loan_amount i := by
  rw [summaryOf_valid hv]
  rfl

lemma summary_rental_sum {i : PropertyInvestmentInput} (hv : validScenario i) :
    (summaryOf i).total_rental_income =
      ((projectionsOf i).map (fun p => p.rental_income)).sum := by
  rw [summaryOf_valid hv, projectionsOf_valid hv]
  rfl

lemma summary_expenses_sum {i : PropertyInvestmentInput} (hv : validScenario i) :
    (summaryOf i).total_expenses =
      ((projectionsOf i).map (fun p => p.expenses.total)).sum := by
  rw [summaryOf_valid hv, projectionsOf_valid hv]
  rfl

lemma summary_total_cash_flow {i : PropertyInvestmentInput} (hv : validScenario i) :
    (summaryOf i).total_cash_flow =
      (summaryOf i).total_rental_income - (summaryOf i).total_expenses := by
  rw [summaryOf_valid hv]
  rfl

lemma summary_principal {i : PropertyInvestmentInput} (hv : validScenario i) :
    (summaryOf i).total_principal_paydown =
      loan_amount i - balAt i (holdingCount i) := by
  rw [summaryOf_valid hv]
  show loan_amount i -
    (projLoop i 1 (holdingCount i) (initState i)).2.remaining_balance = _
  rw [projLoop_snd]
  rfl

lemma summary_final_equity {i : PropertyInvestmentInput} (hv : validScenario i) :
    (summaryOf i).final_equity =
      i.down_payment + (summaryOf i).total_principal_paydown := by
  rw [summaryOf_valid hv]
  rfl

lemma summary_net_profit {i : PropertyInvestmentInput} (hv : validScenario i) :
    (summaryOf i).net_profit =
      (summaryOf i).total_cash_flow + (summaryOf i).final_equity -
        (summaryOf i).initial_investment := by
  rw [summaryOf_valid hv]
  rfl

lemma summary_roi {i : PropertyInvestmentInput} (hv : validScenario i) :
    (summaryOf i).roi = (summaryOf i).net_profit / (summaryOf i).initial_investment * 100 := by
  rw [summaryOf_valid hv]
  rfl

lemma summary_avg_coc {i : PropertyInvestmentInput} (hv : validScenario i) :
    (summaryOf i).avg_cash_on_cash_return =
      (summaryOf i).total_cash_flow / (i.holding_period_years : ℚ) /
        (summaryOf i).initial_investment * 100 := by
  rw [summaryOf_valid hv]
  rfl

lemma summary_break_even {i : PropertyInvestmentInput} (hv : validScenario i) :
    (summaryOf i).break_even_year = beAt i (holdingCount i) := by
  rw [summaryOf_valid hv]
  show (projLoop i 1 (holdingCount i) (initState i)).2.break_even_year = _
  rw [projLoop_snd]
  rfl

lemma geomSum_zero_rate : ∀ m : ℕ, geomSum 0 m = (m : ℚ) := by
  intro m
  induction m with
  | zero =>
    show (0:ℚ) = ((0:ℕ):ℚ)
    norm_num
  | succ m ih =>
    show geomSum 0 m + ((1:ℚ) + 0) ^ m = ((m + 1 : ℕ):ℚ)
    rw [ih]
    push_cast
    norm_num

/-! ### Claims -/

set_option maxHeartbeats 2000000

lemma scenarioOne_valid : validScenario scenarioOne := by
  norm_num [validScenario, scenarioOne]

lemma scenarioTwo_valid : validScenario scenarioTwo := by
  norm_num [validScenario, scenarioTwo]

lemma scenarioSmall_valid : validScenario scenarioSmall := by
  norm_num [validScenario, scenarioSmall]

lemma scenarioActive_valid : validScenario scenarioActive := by
  norm_num [validScenario, scenarioActive]

/-- C1 (counterexample): for the scenario `scenarioOne`, the recorded year-1
principal paydown does not equal Operation B applied with the
principal-and-interest outlay that excludes the separate insurance charge:
`analyze` actually passes the total outlay including the insurance charge. -/
theorem C1_counterexample :
    validScenario scenarioOne ∧
    (projRec scenarioOne 0).principal_paydown ≠
      calculate_yearly_principal_paydown (loan_amount scenarioOne) (monthly_rate scenarioOne)
        (monthly_mortgage_payment scenarioOne) 1 scenarioOne.loan_term_years := by
  refine ⟨scenarioOne_valid, ?_⟩
  rw [projRec_paydown scenarioOne_valid (by decide)]
  have h1 : pdAt scenarioOne 0 = 968231/8190 := by
    unfold pdAt
    norm_num [balAt_zero, calculate_yearly_principal_paydown, paydownLoop, monthly_rate,
      total_monthly_mortgage, monthly_mortgage_payment, monthly_life_insurance, loan_amount,
      num_payments, calculate_monthly_payment, scenarioOne]
  have h2 : calculate_yearly_principal_paydown (loan_amount scenarioOne)
      (monthly_rate scenarioOne) (monthly_mortgage_payment scenarioOne) 1
      scenarioOne.loan_term_years = 100 := by
    norm_num [calculate_yearly_principal_paydown, paydownLoop, monthly_rate,
      monthly_mortgage_payment, loan_amount, num_payments, calculate_monthly_payment,
      scenarioOne]
  rw [h1, h2]
  norm_num

/-- C1 (amended): for every validated scenario and every projected year, the
recorded principal paydown equals Operation B applied to the balance carried
from the previous iteration, the periodic rate, and the fixed monthly TOTAL
outlay including the separate insurance charge; Operation B returns 0 when
the year exceeds the loan term, and otherwise simulates at most 12 monthly
steps (interest = balance times rate, principal portion = outlay minus
interest, balance decremented, principal summed, stopping before processing
further months once the balance is zero or below). -/
theorem C1_paydown_refines {i : PropertyInvestmentInput} (hv : validScenario i)
    (k : ℕ) (hk : k < holdingCount i) :
    ((projRec i k).principal_paydown =
      calculate_yearly_principal_paydown
        (if k = 0 then loan_amount i else (projRec i (k - 1)).remaining_balance)
        (monthly_rate i) (total_monthly_mortgage i) ((k : ℤ) + 1) i.loan_term_years) ∧
    (∀ b r p : ℚ, ∀ y t : ℤ, t < y → calculate_yearly_principal_paydown b r p y t = 0) ∧
    (∀ b r p : ℚ, ∀ y t : ℤ, y ≤ t →
      calculate_yearly_principal_paydown b r p y t = monthlySimSpec r p 12 b) := by
  refine ⟨?_, ?_, ?_⟩
  · rw [projRec_paydown hv hk]
    have hbal : (if k = 0 then loan_amount i else (projRec i (k - 1)).remaining_balance) =
        balAt i k := by
      cases k with
      | zero =>
        rw [if_pos rfl]
        exact (balAt_zero i).symm
      | succ k' =>
        rw [if_neg (Nat.succ_ne_zero k')]
        rw [Nat.succ_sub_one]
        exact projRec_balance hv (by omega)
    rw [hbal]
    unfold pdAt
    have hyr : (((1 + k : ℕ)):ℤ) = (k:ℤ) + 1 := by push_cast; ring
    rw [hyr]
  · intro b r p y t ht
    unfold calculate_yearly_principal_paydown
    rw [if_pos ht]
  · intro b r p y t ht
    unfold calculate_yearly_principal_paydown
    rw [if_neg (not_lt.mpr ht), paydownLoop_snd_eq_sim, zero_add]

/-- C1 witness: the amended statement instantiated at `scenarioSmall`,
year 1. -/
theorem C1_witness :
    (projRec scenarioSmall 0).principal_paydown =
      calculate_yearly_principal_paydown
        (if (0:ℕ) = 0 then loan_amount scenarioSmall
         else (projRec scenarioSmall (0 - 1)).remaining_balance)
        (monthly_rate scenarioSmall) (total_monthly_mortgage scenarioSmall)
        (((0:ℕ) : ℤ) + 1) scenarioSmall.loan_term_years :=
  (C1_paydown_refines scenarioSmall_valid 0 (by decide)).1

/-- C2: the periodic-payment operation returns loan over count at zero rate
and the closed-form annuity otherwise, and the resulting level payment
amortizes the loan exactly to zero after the given number of periods. -/
theorem C2_monthly_payment (P r : ℚ) (m : ℕ) (hm : m ≠ 0) :
    (r = 0 → calculate_monthly_payment P r (m : ℤ) = P / (m : ℚ)) ∧
    (r ≠ 0 → calculate_monthly_payment P r (m : ℤ) =
      P * (r * (1 + r) ^ m) / ((1 + r) ^ m - 1)) ∧
    (0 ≤ r → amortBal r (calculate_monthly_payment P r (m : ℤ)) P m = 0) := by
  refine ⟨?_, ?_, ?_⟩
  · intro h0
    unfold calculate_monthly_payment
    rw [if_pos h0]
    push_cast
    ring
  · intro hne
    unfold calculate_monthly_payment
    rw [if_neg hne, zpow_natCast]
  · intro hr
    rw [amortBal_closed]
    rcases eq_or_lt_of_le hr with h0 | hpos
    · have h0' := h0.symm
      subst h0'
      unfold calculate_monthly_payment
      rw [if_pos rfl, geomSum_zero_rate]
      have hm' : (m:ℚ) ≠ 0 := Nat.cast_ne_zero.mpr hm
      push_cast
      rw [add_zero, one_pow]
      field_simp
    · unfold calculate_monthly_payment
      rw [if_neg (ne_of_gt hpos), zpow_natCast]
      have hgs := geomSum_mul r m
      have hA : 1 < (1 + r) ^ m := one_lt_pow₀ (by linarith) hm
      have hne : (1 + r) ^ m - (1:ℚ) ≠ 0 := sub_ne_zero.mpr (ne_of_gt hA)
      have key : P * (r * (1 + r) ^ m) / ((1 + r) ^ m - 1) * geomSum r m =
          P * (1 + r) ^ m := by
        rw [div_mul_eq_mul_div, div_eq_iff hne]
        linear_combination (P * (1 + r) ^ m) * hgs
      linarith [key]

/-- C2 witness: the zero-balance property at loan 1, periodic rate 1, 12
payments. -/
theorem C2_witness :
    amortBal 1 (calculate_monthly_payment 1 1 ((12:ℕ) : ℤ)) 1 12 = 0 :=
  (C2_monthly_payment 1 1 12 (by decide)).2.2 (by norm_num)

/-- C3: a validated analysis emits exactly holding-period-years records; the
record of year k+1 carries that year number, rental income equal to base
rent compounded by rent growth and reduced by vacancy, management computed
on the grown but vacancy-unadjusted rent, the constant insurance figure
reported in the record, and an expense total of mortgage + tax + HOA +
maintenance + management that excludes the insurance figure. -/
theorem C3_projection_rows {i : PropertyInvestmentInput} (hv : validScenario i) :
    ((projectionsOf i).length : ℤ) = i.holding_period_years ∧
    ∀ k, k < holdingCount i →
      (projRec i k).year = (k : ℤ) + 1 ∧
      (projRec i k).rental_income =
        i.monthly_rent * (1 + i.rent_increase_annual / 100) ^ k *
          (1 - i.vacancy_rate / 100) * 12 ∧
      (projRec i k).expenses.management =
        i.monthly_rent * (1 + i.rent_increase_annual / 100) ^ k * 12 *
          (i.management_fee_percent / 100) ∧
      (projRec i k).expenses.mortgage = total_monthly_mortgage i * 12 ∧
      (projRec i k).expenses.insurance = loan_amount i * 0.004 ∧
      (projRec i k).expenses.total =
        (projRec i k).expenses.mortgage + (projRec i k).expenses.property_tax +
        (projRec i k).expenses.hoa + (projRec i k).expenses.maintenance +
        (projRec i k).expenses.management := by
  constructor
  · rw [projectionsOf_length hv]
    have v7 := hv.2.2.2.2.2.2.1
    unfold holdingCount
    omega
  · intro k hk
    rw [projRec_eq hv hk]
    refine ⟨?_, ?_, ?_, ?_, ?_, ?_⟩
    · rw [yearStep_year]
      push_cast
      ring
    · rw [yearStep_rental, Nat.add_sub_cancel_left]
    · rw [yearStep_exp_management, Nat.add_sub_cancel_left]
    · exact yearStep_exp_mortgage i (1 + k) (stAt i k)
    · exact yearStep_exp_insurance i (1 + k) (stAt i k)
    · exact yearStep_exp_total i (1 + k) (stAt i k)

/-- C3 witness: the length property instantiated at `scenarioSmall`. -/
theorem C3_witness :
    ((projectionsOf scenarioSmall).length : ℤ) = scenarioSmall.holding_period_years :=
  (C3_projection_rows scenarioSmall_valid).1

/-- C4: the reported summary satisfies the stated accounting identities:
upfront investment composition, total cash flow as rent minus expenses,
principal paid as loan minus final balance, final equity, net profit, ROI
and average cash-on-cash. -/
theorem C4_summary {i : PropertyInvestmentInput} (hv : validScenario i) :
    (summaryOf i).initial_investment =
      i.down_payment + loan_amount i * 0.01 + loan_amount i * 0.015 + 750 ∧
    (summaryOf i).total_cash_flow =
      ((projectionsOf i).map (fun p => p.rental_income)).sum -
        ((projectionsOf i).map (fun p => p.expenses.total)).sum ∧
    (summaryOf i).total_principal_paydown =
      (summaryOf i).loan_amount - (projRec i (holdingCount i - 1)).remaining_balance ∧
    (summaryOf i).final_equity = i.down_payment + (summaryOf i).total_principal_paydown ∧
    (summaryOf i).net_profit =
      (summaryOf i).total_cash_flow + (summaryOf i).final_equity -
        (summaryOf i).initial_investment ∧
    (summaryOf i).roi = (summaryOf i).net_profit / (summaryOf i).initial_investment * 100 ∧
    (summaryOf i).avg_cash_on_cash_return =
      (summaryOf i).total_cash_flow / (i.holding_period_years : ℚ) /
        (summaryOf i).initial_investment * 100 := by
  refine ⟨?_, ?_, ?_, summary_final_equity hv, summary_net_profit hv, summary_roi hv,
    summary_avg_coc hv⟩
  · rw [summary_initial hv]
    rfl
  · rw [summary_total_cash_flow hv, summary_rental_sum hv, summary_expenses_sum hv]
  · rw [summary_principal hv, summary_loan hv]
    have hc := valid_holdingCount_pos hv
    have hk : holdingCount i - 1 < holdingCount i := by omega
    rw [projRec_balance hv hk]
    have heq : holdingCount i - 1 + 1 = holdingCount i := by omega
    rw [heq]

/-- C4 witness: the upfront-investment identity at `scenarioSmall`. -/
theorem C4_witness :
    (summaryOf scenarioSmall).initial_investment =
      scenarioSmall.down_payment + loan_amount scenarioSmall * 0.01 +
        loan_amount scenarioSmall * 0.015 + 750 :=
  (C4_summary scenarioSmall_valid).1

/-- C5: validation accepts exactly the scenarios satisfying the §3
invariants, rejects with the first violated invariant's message in the
fixed order, and a rejected scenario produces no projection records. -/
theorem C5_validation (i : PropertyInvestmentInput) :
    (validate_input i = Except.ok () ↔ validScenario i) ∧
    (firstViolationSpec i = none ↔ validScenario i) ∧
    (∀ m : String, firstViolationSpec i = some m →
      validate_input i = Except.error m ∧ analyze i = Except.error m ∧
        projectionsOf i = []) := by
  refine ⟨validate_input_ok_iff i, firstViolationSpec_none_iff i, ?_⟩
  intro m hm
  have h1 := validate_input_error_of_spec hm
  exact ⟨h1, analyze_error h1, projectionsOf_error h1⟩

/-- C5 witness: a scenario whose down payment exceeds its price fails with
the down-payment message and yields no projections. -/
theorem C5_witness :
    validate_input scenarioInvalid =
      Except.error "Down payment must be less than property price" ∧
    projectionsOf scenarioInvalid = [] := by
  have hfv : firstViolationSpec scenarioInvalid =
      some "Down payment must be less than property price" := by
    norm_num [firstViolationSpec, scenarioInvalid]
  have h := (C5_validation scenarioInvalid).2.2 _ hfv
  exact ⟨h.1, h.2.2⟩

/-- C6: in every validated analysis the recorded balance after year k+1 is
the loan amount minus the recorded paydowns so far (the loop invariant); in
particular, when the loan term fits in the holding period, the paydowns of
the years within the term plus the balance at maturity reconstitute the
loan amount exactly, and paydowns beyond the term are zero. -/
theorem C6_conservation {i : PropertyInvestmentInput} (hv : validScenario i) :
    (∀ k, k < holdingCount i →
      (projRec i k).remaining_balance =
        loan_amount i - ∑ j ∈ Finset.range (k + 1), (projRec i j).principal_paydown) ∧
    (i.loan_term_years ≤ i.holding_period_years →
      (∑ j ∈ Finset.range i.loan_term_years.toNat, (projRec i j).principal_paydown) +
        (projRec i (i.loan_term_years.toNat - 1)).remaining_balance = loan_amount i) ∧
    (∀ k, k < holdingCount i → i.loan_term_years < (k : ℤ) + 1 →
      (projRec i k).principal_paydown = 0) := by
  have hsum : ∀ n, n ≤ holdingCount i →
      (∑ j ∈ Finset.range n, (projRec i j).principal_paydown) =
        ∑ j ∈ Finset.range n, pdAt i j := by
    intro n hn
    refine Finset.sum_congr rfl ?_
    intro j hj
    have hj' : j < holdingCount i := by
      have := Finset.mem_range.mp hj
      omega
    exact projRec_paydown hv hj'
  refine ⟨?_, ?_, ?_⟩
  · intro k hk
    rw [projRec_balance hv hk, balAt_eq_loan_sub_sum i (k + 1), hsum (k + 1) (by omega)]
  · intro hterm
    have v5 := hv.2.2.2.2.1
    have hT1 : 1 ≤ i.loan_term_years.toNat := by omega
    have hThc : i.loan_term_years.toNat ≤ holdingCount i := by
      unfold holdingCount
      omega
    have hk : i.loan_term_years.toNat - 1 < holdingCount i := by omega
    rw [projRec_balance hv hk]
    have heq : i.loan_term_years.toNat - 1 + 1 = i.loan_term_years.toNat := by omega
    rw [heq, balAt_eq_loan_sub_sum i i.loan_term_years.toNat, hsum _ hThc]
    ring
  · intro k hk hterm
    rw [projRec_paydown hv hk]
    apply pdAt_zero_beyond
    push_cast
    omega

/-- C6 witness: the conservation identity at `scenarioSmall`, whose loan
term equals its holding period. -/
theorem C6_witness :
    (∑ j ∈ Finset.range scenarioSmall.loan_term_years.toNat,
        (projRec scenarioSmall j).principal_paydown) +
      (projRec scenarioSmall (scenarioSmall.loan_term_years.toNat - 1)).remaining_balance =
      loan_amount scenarioSmall :=
  (C6_conservation scenarioSmall_valid).2.1 (by decide)

/-- C7 (counterexample): with loan term equal to holding period and a
positive rate, the insurance-inflated outlay retires the loan of
`scenarioTwo` during year one, so the year-2 recorded principal portion
drops below the year-1 one: the unguarded strict monotonicity fails. -/
theorem C7_counterexample :
    validScenario scenarioTwo ∧
    scenarioTwo.holding_period_years ≤ scenarioTwo.loan_term_years ∧
    (projRec scenarioTwo 1).principal_paydown < (projRec scenarioTwo 0).principal_paydown := by
  refine ⟨scenarioTwo_valid, by decide, ?_⟩
  rw [@projRec_paydown scenarioTwo scenarioTwo_valid 1 (by decide),
    @projRec_paydown scenarioTwo scenarioTwo_valid 0 (by decide)]
  norm_num [pdAt, balAt_succ, balAt_zero, calculate_yearly_principal_paydown, paydownLoop,
    monthly_rate, total_monthly_mortgage, monthly_mortgage_payment, monthly_life_insurance,
    loan_amount, num_payments, calculate_monthly_payment, scenarioTwo]

/-- C7 (amended): for a validated scenario with loan term at least the
holding period, while the loan is still active (the recorded balance after
the later of two consecutive years is still positive), the recorded
remaining balance strictly decreases, the yearly principal portion strictly
increases, and the yearly interest portion (the sum of the monthly interest
components of the same simulation) strictly decreases. -/
theorem C7_monotone {i : PropertyInvestmentInput} (hv : validScenario i)
    (hterm : i.holding_period_years ≤ i.loan_term_years) (k : ℕ)
    (hk : k + 1 < holdingCount i)
    (hact : 0 < (projRec i (k + 1)).remaining_balance) :
    (projRec i (k + 1)).remaining_balance < (projRec i k).remaining_balance ∧
    (projRec i k).principal_paydown < (projRec i (k + 1)).principal_paydown ∧
    yearlyInterestAt i (k + 1) < yearlyInterestAt i k := by
  have hk0 : k < holdingCount i := by omega
  have hr := valid_rate_pos hv
  have hpm := valid_pmt_gt hv
  have hb2 : 0 < balAt i (k + 2) := by
    rw [projRec_balance hv hk] at hact
    exact hact
  have hterm1 : ((1 + k : ℕ) : ℤ) ≤ i.loan_term_years := by
    unfold holdingCount at hk
    omega
  have hterm2 : ((1 + (k + 1) : ℕ) : ℤ) ≤ i.loan_term_years := by
    unfold holdingCount at hk
    omega
  have hb1 : 0 < balAt i (k + 1) := lt_of_lt_of_le hb2 (balAt_succ_le hv (k + 1))
  have hLk : balAt i k ≤ loan_amount i := balAt_le_loan hv k
  have hLk1 : balAt i (k + 1) ≤ loan_amount i := balAt_le_loan hv (k + 1)
  have hA1 : balAt i (k + 1) =
      amortBal (monthly_rate i) (total_monthly_mortgage i) (balAt i k) 12 :=
    balAt_amort_of_pos hv hterm1 hb1
  have hstrict1 : balAt i (k + 1) < balAt i k := by
    rw [hA1]
    exact amortBal_lt_of_lt hr hpm 12 0 (balAt i k) (by norm_num) hLk
  have hA2 : balAt i (k + 2) =
      amortBal (monthly_rate i) (total_monthly_mortgage i) (balAt i (k + 1)) 12 :=
    balAt_amort_of_pos hv hterm2 hb2
  have hstrict2 : balAt i (k + 2) < balAt i (k + 1) := by
    rw [hA2]
    exact amortBal_lt_of_lt hr hpm 12 0 (balAt i (k + 1)) (by norm_num) hLk1
  have hpd1 := pdAt_formula_of_pos hv hterm1 hb1
  have hpd2 := pdAt_formula_of_pos hv hterm2 hb2
  have hgs : 0 < geomSum (monthly_rate i) 12 := geomSum_pos hr 11
  have hpdlt : pdAt i k < pdAt i (k + 1) := by
    rw [hpd1, hpd2]
    nlinarith [mul_pos hgs (mul_pos hr (sub_pos.mpr hstrict1))]
  refine ⟨?_, ?_, ?_⟩
  · rw [projRec_balance hv hk, projRec_balance hv hk0]
    exact hstrict2
  · rw [projRec_paydown hv hk0, projRec_paydown hv hk]
    exact hpdlt
  · rw [yearlyInterestAt_of_pos hv hterm1 hb1, yearlyInterestAt_of_pos hv hterm2 hb2]
    linarith [hpdlt]

/-- C7 witness: the amended statement at `scenarioActive` (term 3 years,
holding 2 years), between years 1 and 2, where the loan stays active. -/
theorem C7_witness :
    (projRec scenarioActive 1).remaining_balance <
      (projRec scenarioActive 0).remaining_balance ∧
    (projRec scenarioActive 0).principal_paydown <
      (projRec scenarioActive 1).principal_paydown ∧
    yearlyInterestAt scenarioActive 1 < yearlyInterestAt scenarioActive 0 :=
  C7_monotone scenarioActive_valid (by decide) 0 (by decide) (by
    show (0:ℚ) < (projRec scenarioActive 1).remaining_balance
    rw [@projRec_balance scenarioActive scenarioActive_valid 1 (by decide)]
    show (0:ℚ) < balAt scenarioActive 2
    norm_num [pdAt, balAt_succ, balAt_zero, calculate_yearly_principal_paydown, paydownLoop,
      monthly_rate, total_monthly_mortgage, monthly_mortgage_payment, monthly_life_insurance,
      loan_amount, num_payments, calculate_monthly_payment, scenarioActive])

/-- C8: every recorded cumulative cash flow equals the negated upfront
investment plus the recorded net cash flows so far, and the break-even
marker is exactly the first year whose cumulative cash flow is
non-negative, never re-evaluated afterwards (none when no crossing
occurs). -/
theorem C8_cumulative_break_even {i : PropertyInvestmentInput} (hv : validScenario i) :
    (∀ k, k < holdingCount i →
      (projRec i k).cumulative_cash_flow =
        -initial_investment i + ∑ j ∈ Finset.range (k + 1), (projRec i j).net_cash_flow) ∧
    ((summaryOf i).break_even_year = none ↔
      ∀ k, k < holdingCount i → (projRec i k).cumulative_cash_flow < 0) ∧
    (∀ k, k < holdingCount i → 0 ≤ (projRec i k).cumulative_cash_flow →
      (∀ j, j < k → (projRec i j).cumulative_cash_flow < 0) →
      (summaryOf i).break_even_year = some ((k : ℤ) + 1)) := by
  have hncf : ∀ n, n ≤ holdingCount i →
      (∑ j ∈ Finset.range n, (projRec i j).net_cash_flow) =
        ∑ j ∈ Finset.range n, ncfAt i j := by
    intro n hn
    refine Finset.sum_congr rfl ?_
    intro j hj
    have hj' : j < holdingCount i := by
      have := Finset.mem_range.mp hj
      omega
    exact projRec_ncf hv hj'
  refine ⟨?_, ?_, ?_⟩
  · intro k hk
    rw [projRec_cum hv hk, cumAt_eq i (k + 1), hncf (k + 1) (by omega)]
  · rw [summary_break_even hv]
    rcases beAt_char i (holdingCount i) with ⟨hnone, hall⟩ | ⟨m, hm, hsome, hge, hprev⟩
    · constructor
      · intro _ k hk
        rw [projRec_cum hv hk]
        exact hall k hk
      · intro _
        exact hnone
    · constructor
      · intro hceq
        rw [hceq] at hsome
        exact Option.noConfusion hsome
      · intro hallneg
        exfalso
        have := hallneg m hm
        rw [projRec_cum hv hm] at this
        linarith
  · intro k hk hge0 hprev0
    rw [summary_break_even hv]
    rcases beAt_char i (holdingCount i) with ⟨hnone, hall⟩ | ⟨m, hm, hsome, hge, hprev⟩
    · exfalso
      have := hall k hk
      rw [← projRec_cum hv hk] at this
      linarith
    · have hmk : ¬ m < k := by
        intro h
        have h1 := hprev0 m h
        rw [projRec_cum hv hm] at h1
        linarith
      have hkm : ¬ k < m := by
        intro h
        have h1 := hprev k h
        rw [← projRec_cum hv hk] at h1
        linarith
      have hmeq : m = k := by omega
      subst hmeq
      rw [hsome]
      congr 1
      push_cast
      ring

/-- C8 witness: the cumulative formula at year 1 of `scenarioSmall`. -/
theorem C8_witness :
    (projRec scenarioSmall 0).cumulative_cash_flow =
      -initial_investment scenarioSmall +
        ∑ j ∈ Finset.range 1, (projRec scenarioSmall j).net_cash_flow :=
  (C8_cumulative_break_even scenarioSmall_valid).1 0 (by decide)

/-- C9: on a validated scenario the analysis completes without any error,
and the guarded denominators are indeed nonzero: the payment count, the
annuity denominator, the holding period and the upfront investment. -/
theorem C9_totality {i : PropertyInvestmentInput} (hv : validScenario i) :
    analyzeOk i = true ∧
    num_payments i ≠ 0 ∧
    (1 + monthly_rate i) ^ num_payments i - 1 ≠ 0 ∧
    (i.holding_period_years : ℚ) ≠ 0 ∧
    0 < initial_investment i := by
  refine ⟨analyzeOk_valid hv, ne_of_gt (valid_num_payments_pos hv), ?_, ?_, ?_⟩
  · have hr := valid_rate_pos hv
    have hn := valid_num_payments_pos hv
    obtain ⟨m, hm⟩ : ∃ m : ℕ, num_payments i = (m : ℤ) :=
      ⟨(num_payments i).toNat, (Int.toNat_of_nonneg hn.le).symm⟩
    rw [hm] at hn ⊢
    rw [zpow_natCast]
    have hm0 : m ≠ 0 := by omega
    have hA : 1 < (1 + monthly_rate i) ^ m := one_lt_pow₀ (by linarith) hm0
    exact ne_of_gt (by linarith)
  · have v7 := hv.2.2.2.2.2.2.1
    exact Int.cast_ne_zero.mpr (ne_of_gt v7)
  · unfold initial_investment arrangement_fee registration_fee survey_fee
    have hL := valid_loan_pos hv
    have v2 := hv.2.1
    have h1 : 0 < loan_amount i * 0.01 := mul_pos hL (by norm_num)
    have h2 : 0 < loan_amount i * 0.015 := mul_pos hL (by norm_num)
    linarith

/-- C9 witness: the analysis of `scenarioSmall` returns normally. -/
theorem C9_witness : analyzeOk scenarioSmall = true :=
  (C9_totality scenarioSmall_valid).1

/-- C10: on a validated scenario the level total outlay strictly exceeds
the interest on the full loan, every recorded principal paydown is
non-negative, and the recorded remaining balance never exceeds the loan
amount. -/
theorem C10_paydown_nonneg {i : PropertyInvestmentInput} (hv : validScenario i) :
    monthly_rate i * loan_amount i < total_monthly_mortgage i ∧
    ∀ k, k < holdingCount i →
      0 ≤ (projRec i k).principal_paydown ∧
      (projRec i k).remaining_balance ≤ loan_amount i := by
  refine ⟨valid_pmt_gt hv, ?_⟩
  intro k hk
  constructor
  · rw [projRec_paydown hv hk]
    exact pdAt_nonneg hv k
  · rw [projRec_balance hv hk]
    exact balAt_le_loan hv (k + 1)

/-- C10 witness: non-negative year-1 paydown at `scenarioSmall`. -/
theorem C10_witness : 0 ≤ (projRec scenarioSmall 0).principal_paydown :=
  ((C10_paydown_nonneg scenarioSmall_valid).2 0 (by decide)).1
